import Mathlib

/-!
Verification of the chain/gate protocol layer of the claude-prompts plugin:
the response interpreter and session-state store
(`.claude-plugin/hooks/lib/session_state.py`), the enforcement gate
(`.claude-plugin/hooks/gate-enforce.py`) and the post-response hook
(`hooks/post-prompt-engine.py`) are embedded as executable Lean functions
over `List Char`, modelling Python string scanning character by character.

The regular expressions of the source are embedded as dedicated scanners,
each reproducing the leftmost-match and greedy/lazy backtracking behaviour
of the specific pattern (documented at each definition).  Python `\s` and
`\d` are modelled over their ASCII ranges, which cover every text the
protocol produces.
-/

/-- ASCII model of Python regex `\s` (also used by `str.strip`). -/
def isWs (c : Char) : Bool :=
  c = ' ' || c = '\t' || c = '\n' || c = '\r' || c = '\x0b' || c = '\x0c'

/-- ASCII model of Python regex `\d`. -/
def isDigitC (c : Char) : Bool :=
  '0' ≤ c && c ≤ '9'

/-- Literal matcher: does `lit` start the text `l` (case sensitive)? -/
def litPref : List Char → List Char → Bool
  | [], _ => true
  | _ :: _, [] => false
  | a :: as, b :: bs => if a = b then litPref as bs else false

/-- Literal matcher, ASCII case-insensitive (model of `re.IGNORECASE`). -/
def litPrefCI : List Char → List Char → Bool
  | [], _ => true
  | _ :: _, [] => false
  | a :: as, b :: bs => if a.toLower = b.toLower then litPrefCI as bs else false

/-- Consume a case-sensitive literal, returning the remaining text. -/
def dropLit (lit l : List Char) : Option (List Char) :=
  if litPref lit l then some (l.drop lit.length) else none

/-- Consume a case-insensitive literal, returning the remaining text. -/
def dropLitCI (lit l : List Char) : Option (List Char) :=
  if litPrefCI lit l then some (l.drop lit.length) else none

/-- Python `needle in hay` on strings: contiguous substring test. -/
def containsSubL (needle : List Char) : List Char → Bool
  | [] => needle.isEmpty
  | c :: rest => litPref needle (c :: rest) || containsSubL needle rest

/-- Python `str.strip()`: drop whitespace from both ends. -/
def stripL (l : List Char) : List Char :=
  ((l.dropWhile isWs).reverse.dropWhile isWs).reverse

/-- Python `int` on a digit string. -/
def natOfDigits (l : List Char) : Nat :=
  l.foldl (fun n c => n * 10 + (c.toNat - 48)) 0

/-- `re.search` driver: try the position matcher `m` at every start
position from the left and return the first hit (leftmost match). -/
def searchWith {α : Type} (m : List Char → Option α) : List Char → Option α
  | [] => m []
  | c :: rest =>
    match m (c :: rest) with
    | some r => some r
    | none => searchWith m rest

/-- Boolean `re.search` driver for matchers without capture groups. -/
def searchB (m : List Char → Bool) : List Char → Bool
  | [] => m []
  | c :: rest => m (c :: rest) || searchB m rest

/-- Python `sep.join(parts)`. -/
def joinSep (sep : List Char) : List (List Char) → List Char
  | [] => []
  | [x] => x
  | x :: y :: xs => x ++ sep ++ joinSep sep (y :: xs)

/-!  ## Response interpreter (`session_state.parse_prompt_engine_response`)  -/

/-- The per-session chain/gate record (`ChainState` TypedDict of
`session_state.py`).  `pending_gate : str | None` becomes an `Option`. -/
structure ChainState where
  chain_id : List Char
  current_step : Nat
  total_steps : Nat
  pending_gate : Option (List Char)
  gate_criteria : List (List Char)
  last_prompt_id : List Char
deriving DecidableEq

/-- Python truthiness of the `pending_gate` field (`None` and `""` are
falsy, any other string truthy). -/
def pendingTruthy : Option (List Char) → Bool
  | none => false
  | some g => !g.isEmpty

/-- Position matcher for `(?:[Ss]tep|[Pp]rogress)\s+(\d+)\s*(?:of|/)\s*(\d+)`.
Every quantifier here is greedy against a follower from a disjoint
character class, so matching is deterministic: no backtracking can occur. -/
def stepMatchAt (l : List Char) : Option (Nat × Nat) :=
  let word : Option (List Char) :=
    match l with
    | c :: cs =>
      if c = 'S' ∨ c = 's' then dropLit ['t', 'e', 'p'] cs
      else if c = 'P' ∨ c = 'p' then dropLit ['r', 'o', 'g', 'r', 'e', 's', 's'] cs
      else none
    | [] => none
  match word with
  | none => none
  | some r1 =>
    if r1.takeWhile isWs = [] then none
    else
      let r2 := r1.dropWhile isWs
      let d1 := r2.takeWhile isDigitC
      if d1 = [] then none
      else
        let r4 := (r2.dropWhile isDigitC).dropWhile isWs
        let sep : Option (List Char) :=
          match dropLit ['o', 'f'] r4 with
          | some r => some r
          | none => dropLit ['/'] r4
        match sep with
        | none => none
        | some r5 =>
          let d2 := (r5.dropWhile isWs).takeWhile isDigitC
          if d2 = [] then none else some (natOfDigits d1, natOfDigits d2)

/-- `re.search` for the step marker. -/
def stepScan (content : List Char) : Option (Nat × Nat) :=
  searchWith stepMatchAt content

/-- Character class `[a-zA-Z0-9_-]` of the chain-id pattern. -/
def isChainClass (c : Char) : Bool :=
  c.isAlpha || isDigitC c || c = '_' || c = '-'

/-- Position matcher for `chain[-_]([a-zA-Z0-9_-]+)` (case sensitive);
returns group 1.  The greedy class run is followed by nothing, so it is
simply the maximal run. -/
def chainMatchAt (l : List Char) : Option (List Char) :=
  match dropLit ['c', 'h', 'a', 'i', 'n'] l with
  | none => none
  | some rest =>
    match rest with
    | c :: rest2 =>
      if c = '-' ∨ c = '_' then
        let grp := rest2.takeWhile isChainClass
        if grp = [] then none else some grp
      else none
    | [] => none

/-- `re.search` for the chain-id token; yields group 1 of the first match. -/
def chainScan (content : List Char) : Option (List Char) :=
  searchWith chainMatchAt content

/-- Character class `[A-Za-z0-9 _-]` of the gate-heading pattern. -/
def isNameClass (c : Char) : Bool :=
  c.isAlpha || isDigitC c || c = ' ' || c = '_' || c = '-'

/-- Position matcher for `###\s*([A-Za-z][A-Za-z0-9 _-]+)\n`, returning
group 1.  The greedy `\s*` is followed by a letter and the greedy class
run must be followed by a newline; since the class contains no newline
and no whitespace opens it, backtracking can never produce a different
match, so the scanner is deterministic. -/
def gateNameMatchAt (l : List Char) : Option (List Char) :=
  match dropLit ['#', '#', '#'] l with
  | none => none
  | some r1 =>
    match r1.dropWhile isWs with
    | a :: r2 =>
      if a.isAlpha then
        let run := r2.takeWhile isNameClass
        if run = [] then none
        else
          match r2.dropWhile isNameClass with
          | '\n' :: _ => some (a :: run)
          | _ => none
      else none
    | [] => none

/-- `re.findall(r'###\s*([A-Za-z][A-Za-z0-9 _-]+)\n', content)[0]`:
only the first match is consulted by the source, which is exactly the
leftmost search. -/
def gateNameScan (content : List Char) : Option (List Char) :=
  searchWith gateNameMatchAt content

/-- Matcher for what follows a `[-•]` hit in `[-•]\s*(.+?)(?:\n|$)`:
returns the captured group and the number of characters consumed after
the bullet character.  The greedy `\s*` backtracks when the lazy `.+?`
(which cannot cross a newline) finds nothing after it; in that case the
group becomes the last non-newline whitespace character of the run. -/
def bulletAfter (rest : List Char) : Option (List Char × Nat) :=
  let ws := rest.takeWhile isWs
  match rest.dropWhile isWs with
  | t :: ts =>
    let grp := (t :: ts).takeWhile (fun c => !(c = '\n'))
    let after := (t :: ts).dropWhile (fun c => !(c = '\n'))
    some (grp, ws.length + grp.length + (match after with | [] => 0 | _ :: _ => 1))
  | [] =>
    match ws.reverse.dropWhile (fun c => c = '\n') with
    | [] => none
    | c :: t =>
      some ([c], t.length + 1 + (match ws.length - (t.length + 1) with | 0 => 0 | _ + 1 => 1))

/-- Fuelled worker for `bulletFindall`; the fuel only serves to make the
recursion structural (each match consumes at least the bullet character,
so a fuel of the text length never runs out). -/
def bulletFindallAux : Nat → List Char → List (List Char)
  | 0, _ => []
  | _, [] => []
  | fuel + 1, c :: rest =>
    if c = '-' ∨ c = '•' then
      match bulletAfter rest with
      | some (grp, k) => grp :: bulletFindallAux fuel (rest.drop k)
      | none => bulletFindallAux fuel rest
    else bulletFindallAux fuel rest

/-- `re.findall(r'[-•]\s*(.+?)(?:\n|$)', content)`: scan left to right,
collect every capture, resume after the consumed text of each match. -/
def bulletFindall (l : List Char) : List (List Char) :=
  bulletFindallAux l.length l

/-- The gate-section test `"## Inline Gates" in content or "Gate" in content`. -/
def gateBearing (content : List Char) : Bool :=
  containsSubL "## Inline Gates".data content || containsSubL "Gate".data content

/-- `pending_gate` produced by the parser: first gate heading, stripped,
only looked for when the text is gate bearing. -/
def pendingScan (content : List Char) : Option (List Char) :=
  if gateBearing content then (gateNameScan content).map stripL else none

/-- `gate_criteria` produced by the parser:
`[c.strip() for c in criteria[:5] if c.strip()]` over the bullet captures. -/
def criteriaScan (content : List Char) : List (List Char) :=
  if gateBearing content then
    ((bulletFindall content).take 5).filterMap
      (fun c => let s := stripL c; if s = [] then none else some s)
  else []

/-- `parse_prompt_engine_response` on textual content: assemble the state
record from the four independent scanners and return it only when an
actionable signal (`current_step > 0` or truthy `pending_gate`) was found. -/
def parseCore (content : List Char) : Option ChainState :=
  let st : ChainState :=
    { chain_id := (chainScan content).getD []
      current_step := ((stepScan content).map Prod.fst).getD 0
      total_steps := ((stepScan content).map Prod.snd).getD 0
      pending_gate := pendingScan content
      gate_criteria := criteriaScan content
      last_prompt_id := [] }
  if 0 < st.current_step ∨ pendingTruthy st.pending_gate then some st else none

/-!  ## State store (`session_state.load_session_state` / `save_session_state`)  -/

/-- `load_session_state`: the per-session file system is modelled as a map
from session id to `none` (no record file), `some none` (file present but
unreadable, the `IOError` case) or `some (some raw)` (readable content);
`dec` models `json.load`, returning `none` on `JSONDecodeError`.  Every
failure path of the source collapses to `None` via its `try`/`except`. -/
def load_session_state (fs : List Char → Option (Option (List Char)))
    (dec : List Char → Option ChainState) (sid : List Char) : Option ChainState :=
  match fs sid with
  | none => none
  | some none => none
  | some (some raw) => dec raw

/-- Primitive durable-storage operations used to model
`save_session_state` at the level the concurrency claim speaks about. -/
inductive FsOp where
  | truncate (path : List Char)
  | writeAll (path : List Char) (data : List Char)
  | rename (src dst : List Char)
deriving DecidableEq

/-- Effect of one primitive operation on the stored files:
`open(path, "w")` truncates the file to empty, a write appends the data,
a rename moves the file atomically. -/
def applyOp (fs : List Char → Option (List Char)) : FsOp → List Char → Option (List Char)
  | .truncate p, q => if q = p then some [] else fs q
  | .writeAll p d, q => if q = p then some (((fs p).getD []) ++ d) else fs q
  | .rename s d, q => if q = d then fs s else if q = s then none else fs q

/-- Run a sequence of storage operations. -/
def runOps (fs : List Char → Option (List Char)) (ops : List FsOp) :
    List Char → Option (List Char) :=
  ops.foldl applyOp fs

/-- `get_session_state_path`: one file per session id. -/
def sessionPath (sid : List Char) : List Char :=
  sid ++ ".json".data

/-- The operation sequence of `save_session_state`:
`open(state_path, "w")` (truncate) followed by `json.dump` (write).
There is no temporary file and no rename step in the source. -/
def saveOps (sid enc : List Char) : List FsOp :=
  [.truncate (sessionPath sid), .writeAll (sessionPath sid) enc]

/-- Does an operation move a file (the atomic-replace primitive)? -/
def isRenameOp : FsOp → Bool
  | .rename _ _ => true
  | _ => false

/-!  ## Enforcement gate (`gate-enforce.py`)  -/

/-- Position matcher for `GATE_REVIEW:\s*FAIL` with `re.IGNORECASE`:
literal, maximal whitespace run, literal (the follower `F` is not
whitespace, so the greedy `\s*` is deterministic). -/
def failMatchAt (l : List Char) : Bool :=
  match dropLitCI "GATE_REVIEW:".data l with
  | none => false
  | some r => litPrefCI "FAIL".data (r.dropWhile isWs)

/-- `re.search(r'GATE_REVIEW:\s*FAIL', v, re.IGNORECASE)` as a Boolean. -/
def failScan (v : List Char) : Bool :=
  searchB failMatchAt v

/-- The group of `\s*(.+)` after `FAIL[-:]`: greedy whitespace first; when
only whitespace remains, the greedy `\s*` backtracks until the dot can
match, yielding the last non-newline whitespace character. -/
def dotPlusAfterWs (l : List Char) : Option (List Char) :=
  match l.dropWhile isWs with
  | t :: ts => some ((t :: ts).takeWhile (fun c => !(c = '\n')))
  | [] =>
    match l.reverse.dropWhile (fun c => c = '\n') with
    | [] => none
    | c :: _ => some [c]

/-- Position matcher for `FAIL\s*[-:]\s*(.+)` with `re.IGNORECASE`,
returning group 1. -/
def failReasonAt (l : List Char) : Option (List Char) :=
  match dropLitCI "FAIL".data l with
  | none => none
  | some r =>
    match r.dropWhile isWs with
    | c :: r2 => if c = '-' ∨ c = ':' then dotPlusAfterWs r2 else none
    | [] => none

/-- The echoed failure reason: group 1 of the first `FAIL[-:]` match,
stripped, defaulting to `"unspecified"` when the pattern is absent. -/
def failReasonOf (v : List Char) : List Char :=
  match searchWith failReasonAt v with
  | some g => stripL g
  | none => "unspecified".data

/-- The hook input fields consulted by `gate-enforce.py` (each field
defaults to the empty string when absent, per `dict.get(..., "")`). -/
structure HookInput where
  tool_name : List Char
  chain_id : List Char
  gate_verdict : List Char
  user_response : List Char
  session_id : List Char

/-- Outcome of the pre-tool-use hook: plain `sys.exit(0)` is an allow,
a printed `permissionDecision: deny` carries its reason text. -/
inductive Decision where
  | allow
  | deny (reason : List Char)
deriving DecidableEq

/-- Check 2 of `gate-enforce.py`: when resuming a chain without a verdict,
load the session state (only when a session id is present) and extract a
truthy `pending_gate`; `some g` means the check fires with gate name `g`. -/
def lookupPending (load : List Char → Option ChainState) (h : HookInput) :
    Option (List Char) :=
  if h.chain_id ≠ [] ∧ h.gate_verdict = [] then
    match (if h.session_id ≠ [] then load h.session_id else none) with
    | some st =>
      match st.pending_gate with
      | some g => if g = [] then none else some g
      | none => none
    | none => none
  else none

/-- `main` of `gate-enforce.py` as a decision function over the parsed
hook input and the session-state lookup: ignore tools other than the
prompt engine, then apply the three checks in source order. -/
def gateEnforce (load : List Char → Option ChainState) (h : HookInput) : Decision :=
  if containsSubL "prompt_engine".data h.tool_name then
    if h.gate_verdict ≠ [] ∧ failScan h.gate_verdict then
      .deny ("Gate failed: ".data ++ failReasonOf h.gate_verdict ++
        ". Review the gate criteria and retry with improvements. Resubmit with GATE_REVIEW: PASS once criteria are met.".data)
    else
      match lookupPending load h with
      | some g =>
        .deny ("Chain resume requires gate verdict. Pending gate: ".data ++ g ++
          ". Include gate_verdict: GATE_REVIEW: PASS|FAIL - <reason>".data)
      | none =>
        if h.chain_id ≠ [] ∧ h.user_response = [] then
          .deny "Chain resume requires user_response with your output from the previous step. Include user_response parameter with the work completed.".data
        else .allow
  else .allow

/-!  ## Post-response hook (`post-prompt-engine.py`)  -/

/-- The reminder lines `main` assembles from a freshly parsed state:
a gate block (criteria clipped to three entries of at most forty
characters) and a chain-progress line for unfinished chains. -/
def reminderLines (st : ChainState) : List (List Char) :=
  let gateLines : List (List Char) :=
    if pendingTruthy st.pending_gate then
      let criteriaStr : List Char :=
        if st.gate_criteria = [] then []
        else joinSep " | ".data ((st.gate_criteria.take 3).map (fun c => c.take 40))
      let base := ["[Gate] ".data ++ st.pending_gate.getD [],
        "  Respond: GATE_REVIEW: PASS|FAIL - <reason>".data]
      if criteriaStr = [] then base else base ++ ["  Check: ".data ++ criteriaStr]
    else []
  let chainLines : List (List Char) :=
    if 0 < st.current_step ∧ 0 < st.total_steps ∧ st.current_step < st.total_steps then
      ["[Chain] Step ".data ++ (toString st.current_step).data ++ "/".data ++
        (toString st.total_steps).data ++ " - call prompt_engine to continue".data]
    else []
  gateLines ++ chainLines

/-- `main` of `post-prompt-engine.py` as a function from the stored
session map to the new map plus the optional `additionalContext` output:
for prompt-engine responses, parse the content; when the parse yields no
state, exit without touching the store; otherwise overwrite this
session's record and emit the reminder. -/
def postPromptEngine (store : List Char → Option ChainState)
    (toolName sessionId content : List Char) :
    (List Char → Option ChainState) × Option (List Char) :=
  if containsSubL "prompt_engine".data toolName then
    match parseCore content with
    | none => (store, none)
    | some st =>
      (fun sid => if sid = sessionId then some st else store sid,
        let lines := reminderLines st
        if lines = [] then none else some (joinSep "\n".data lines))
  else (store, none)

/-!  ## General lemmas about the scanners  -/

theorem litPref_append_self (n post : List Char) : litPref n (n ++ post) = true := by
  induction n with
  | nil => rfl
  | cons a as ih => simp [litPref, ih]

theorem containsSubL_append (pre n post : List Char) :
    containsSubL n (pre ++ (n ++ post)) = true := by
  induction pre with
  | nil =>
    cases n with
    | nil => cases post <;> simp [containsSubL, litPref]
    | cons a as =>
      simp only [List.nil_append, containsSubL, Bool.or_eq_true]
      left
      exact litPref_append_self (a :: as) post
  | cons c cs ih => simp [containsSubL, ih]

theorem searchWith_cons_none {α : Type} (m : List Char → Option α) (c : Char)
    (rest : List Char) (hm : m (c :: rest) = none) :
    searchWith m (c :: rest) = searchWith m rest := by
  simp [searchWith, hm]

theorem searchWith_cons_some {α : Type} (m : List Char → Option α) (c : Char)
    (rest : List Char) (r : α) (hm : m (c :: rest) = some r) :
    searchWith m (c :: rest) = some r := by
  simp [searchWith, hm]

theorem takeWhile_of_all (p : Char → Bool) (l : List Char) (h : l.all p = true) :
    l.takeWhile p = l := by
  induction l with
  | nil => rfl
  | cons a as ih =>
    simp only [List.all_cons, Bool.and_eq_true] at h
    simp [List.takeWhile_cons, h.1, ih h.2]

theorem failScan_nil : failScan [] = false := rfl

theorem criteriaScan_length_le (content : List Char) :
    (criteriaScan content).length ≤ 5 := by
  unfold criteriaScan
  split
  · exact le_trans (List.length_filterMap_le _ _) (List.length_take_le _ _)
  · simp

/-!  ## Claim theorems

Concrete loads, inputs and texts used by the witnesses are defined first;
`noStateLoad` models a session for which nothing was ever recorded. -/

def noStateLoad : List Char → Option ChainState := fun _ => none

def securityReviewState : ChainState :=
  { chain_id := [], current_step := 0, total_steps := 0,
    pending_gate := some "Security Review".data, gate_criteria := [], last_prompt_id := [] }

def securityReviewLoad : List Char → Option ChainState := fun _ => some securityReviewState

def c1Input : HookInput :=
  { tool_name := "mcp__claude-prompts-mcp__prompt_engine".data, chain_id := "chain-x".data,
    gate_verdict := [], user_response := [], session_id := "s1".data }

/-- Claim C1: for a prompt-engine invocation with `chain_id` present and
`gate_verdict` absent, a stored state with non-empty `pending_gate`
produces a denial whose reason text contains the pending gate name. -/
theorem c1_pending_gate_denies (load : List Char → Option ChainState) (h : HookInput)
    (st : ChainState) (g : List Char)
    (h1 : containsSubL "prompt_engine".data h.tool_name = true)
    (h2 : h.chain_id ≠ [])
    (h3 : h.gate_verdict = [])
    (h4 : h.session_id ≠ [])
    (h5 : load h.session_id = some st)
    (h6 : st.pending_gate = some g)
    (h7 : g ≠ []) :
    ∃ r, gateEnforce load h = Decision.deny r ∧ containsSubL g r = true := by
  have hlp : lookupPending load h = some g := by
    simp [lookupPending, h2, h3, h4, h5, h6, h7]
  refine ⟨"Chain resume requires gate verdict. Pending gate: ".data ++
    (g ++ ". Include gate_verdict: GATE_REVIEW: PASS|FAIL - <reason>".data),
    ?_, containsSubL_append _ _ _⟩
  unfold gateEnforce
  rw [if_pos h1, if_neg (by simp [h3]), hlp]
  simp [List.append_assoc]

/-- Witness for C1 at the spec's own example: stored
`pending_gate = "Security Review"` yields a denial quoting it. -/
theorem c1_pending_gate_denies_witness :
    ∃ r, gateEnforce securityReviewLoad c1Input = Decision.deny r ∧
      containsSubL "Security Review".data r = true :=
  c1_pending_gate_denies securityReviewLoad c1Input securityReviewState
    "Security Review".data (by decide) (by decide) rfl (by decide) rfl rfl (by decide)

def c2Input : HookInput :=
  { tool_name := "prompt_engine".data, chain_id := [],
    gate_verdict := "GATE_REVIEW: FAIL - missing tests".data, user_response := [],
    session_id := [] }

/-- Claim C2: a prompt-engine invocation whose verdict matches
`GATE_REVIEW:\s*FAIL` (case-insensitive) is denied with the extracted
free-text reason echoed in the denial; the extraction yields
`"missing tests"` for the spec's example and `"unspecified"` when no
`FAIL -`/`FAIL:` text follows. -/
theorem c2_fail_verdict_denies :
    (∀ (load : List Char → Option ChainState) (h : HookInput),
      containsSubL "prompt_engine".data h.tool_name = true →
      failScan h.gate_verdict = true →
      ∃ r, gateEnforce load h = Decision.deny r ∧
        containsSubL (failReasonOf h.gate_verdict) r = true) ∧
    failReasonOf "GATE_REVIEW: FAIL - missing tests".data = "missing tests".data ∧
    failReasonOf "GATE_REVIEW: FAIL".data = "unspecified".data := by
  refine ⟨?_, by decide, by decide⟩
  intro load h h1 hfail
  have hne : h.gate_verdict ≠ [] := by
    intro he
    rw [he, failScan_nil] at hfail
    exact Bool.false_ne_true hfail
  refine ⟨"Gate failed: ".data ++ (failReasonOf h.gate_verdict ++
    ". Review the gate criteria and retry with improvements. Resubmit with GATE_REVIEW: PASS once criteria are met.".data),
    ?_, containsSubL_append _ _ _⟩
  unfold gateEnforce
  rw [if_pos h1, if_pos ⟨hne, hfail⟩]
  simp [List.append_assoc]

/-- Witness for C2 at the spec's example verdict. -/
theorem c2_fail_verdict_denies_witness :
    ∃ r, gateEnforce noStateLoad c2Input = Decision.deny r ∧
      containsSubL (failReasonOf c2Input.gate_verdict) r = true :=
  c2_fail_verdict_denies.1 noStateLoad c2Input (by decide) (by decide)

def c3Input : HookInput :=
  { tool_name := "mcp__claude-prompts-mcp__prompt_engine".data, chain_id := "c1".data,
    gate_verdict := "GATE_REVIEW: PASS - all checks done".data, user_response := [],
    session_id := "s1".data }

/-- Counterexample to claim C3 as stated: an invocation with the PASS
verdict of the spec's example and no pending-gate conflict (no state is
stored at all) is nevertheless denied, because its `chain_id` is present
and its `user_response` is absent, so the third check fires. -/
theorem c3_pass_allow_counterexample :
    gateEnforce noStateLoad c3Input ≠ Decision.allow ∧
    gateEnforce noStateLoad c3Input =
      Decision.deny "Chain resume requires user_response with your output from the previous step. Include user_response parameter with the work completed.".data := by
  decide

/-- Claim C3 amended: a prompt-engine invocation whose `gate_verdict` is
present and does not match the FAIL pattern is allowed, provided
additionally that `chain_id` is absent or `user_response` is present
(a present verdict already precludes the pending-gate check). -/
theorem c3_pass_allow_amended (load : List Char → Option ChainState) (h : HookInput)
    (h1 : containsSubL "prompt_engine".data h.tool_name = true)
    (h2 : h.gate_verdict ≠ [])
    (h3 : failScan h.gate_verdict = false)
    (h4 : h.chain_id = [] ∨ h.user_response ≠ []) :
    gateEnforce load h = Decision.allow := by
  have hlp : lookupPending load h = none := by
    simp [lookupPending, h2]
  unfold gateEnforce
  rw [if_pos h1, if_neg (by simp [h3]), hlp,
    if_neg (by rcases h4 with h4 | h4 <;> simp [h4])]

def c3AllowInput : HookInput :=
  { tool_name := "prompt_engine".data, chain_id := "c1".data,
    gate_verdict := "GATE_REVIEW: PASS - all checks done".data,
    user_response := "step output attached".data, session_id := "s1".data }

/-- Witness for the amended C3: the same PASS verdict with a
`user_response` supplied is allowed. -/
theorem c3_pass_allow_witness : gateEnforce noStateLoad c3AllowInput = Decision.allow :=
  c3_pass_allow_amended noStateLoad c3AllowInput (by decide) (by decide) (by decide)
    (Or.inr (by decide))

def c4Input : HookInput :=
  { tool_name := "prompt_engine".data, chain_id := "chain-abc".data,
    gate_verdict := [], user_response := [], session_id := "fresh-session".data }

/-- Claim C4: when neither the FAIL-verdict check nor the pending-gate
check fires, a prompt-engine invocation with `chain_id` present and
`user_response` absent is denied with a reason naming `user_response`;
moreover a session with no recorded state can never satisfy the
pending-gate check, so the denial hits chain starts as well. -/
theorem c4_missing_user_response_denies :
    (∀ (load : List Char → Option ChainState) (h : HookInput),
      containsSubL "prompt_engine".data h.tool_name = true →
      h.chain_id ≠ [] →
      h.user_response = [] →
      failScan h.gate_verdict = false →
      lookupPending load h = none →
      ∃ r, gateEnforce load h = Decision.deny r ∧
        containsSubL "user_response".data r = true) ∧
    (∀ h : HookInput, lookupPending noStateLoad h = none) := by
  constructor
  · intro load h h1 h2 h3 h4 h5
    refine ⟨"Chain resume requires user_response with your output from the previous step. Include user_response parameter with the work completed.".data,
      ?_, by decide⟩
    unfold gateEnforce
    rw [if_pos h1, if_neg (by simp [h4]), h5, if_pos ⟨h2, h3⟩]
  · intro h
    simp [lookupPending, noStateLoad, ite_self]

/-- Witness for C4 on a session with no recorded state. -/
theorem c4_missing_user_response_denies_witness :
    ∃ r, gateEnforce noStateLoad c4Input = Decision.deny r ∧
      containsSubL "user_response".data r = true :=
  c4_missing_user_response_denies.1 noStateLoad c4Input (by decide) (by decide) rfl
    (by decide) (by decide)

/-- Claim C5: a response in which the scan finds no step (current step 0)
and no truthy pending gate makes the interpreter return `none`, and the
post-response hook then leaves the session store untouched and emits no
output. -/
theorem c5_no_signal_no_update (store : List Char → Option ChainState)
    (toolName sessionId content : List Char)
    (hstep : ((stepScan content).map Prod.fst).getD 0 = 0)
    (hgate : pendingTruthy (pendingScan content) = false) :
    parseCore content = none ∧
    postPromptEngine store toolName sessionId content = (store, none) := by
  have hp : parseCore content = none := by
    unfold parseCore
    rw [if_neg]
    rw [hstep, hgate]
    simp
  refine ⟨hp, ?_⟩
  unfold postPromptEngine
  rw [hp]
  split <;> rfl

/-- Witness for C5 on a markerless response. -/
theorem c5_no_signal_no_update_witness :
    parseCore "hello world".data = none ∧
    postPromptEngine noStateLoad "prompt_engine".data "s1".data "hello world".data =
      (noStateLoad, none) :=
  c5_no_signal_no_update noStateLoad "prompt_engine".data "s1".data "hello world".data
    (by decide) (by decide)

def c6FirstMatchText : List Char := "Progress 1 of 3. Step 2 of 5".data

/-- Counterexample to claim C6 as stated: a text containing "Step 2 of 5"
whose first step marker is "Progress 1 of 3" yields steps 1 of 3, not
2 of 5; and the fully upper-case "STEP 2 of 5" is not matched at all,
because only the first letter of the leading word is case-flexible. -/
theorem c6_step_marker_counterexample :
    containsSubL "Step 2 of 5".data c6FirstMatchText = true ∧
    (parseCore c6FirstMatchText).map (fun s => (s.current_step, s.total_steps)) =
      some (1, 3) ∧
    some ((1 : Nat), (3 : Nat)) ≠ some ((2 : Nat), (5 : Nat)) ∧
    parseCore "STEP 2 of 5".data = none := by
  decide

/-- Claim C6 amended: when the first step-marker occurrence is
"Step 2 of 5" (modelled by texts starting with it and continuing with a
non-digit), the interpreter yields steps 2 of 5; the leading word matches
`Step`/`step`/`Progress`/`progress` with only its first letter
case-flexible; the first match wins over later markers. -/
theorem c6_step_marker_amended :
    (∀ tail : List Char, tail.takeWhile isDigitC = [] →
      (parseCore ("Step 2 of 5".data ++ tail)).map
        (fun s => (s.current_step, s.total_steps)) = some (2, 5)) ∧
    (parseCore "step 2 of 5".data).map (fun s => (s.current_step, s.total_steps)) =
      some (2, 5) ∧
    parseCore "STEP 2 of 5".data = none ∧
    (parseCore c6FirstMatchText).map (fun s => (s.current_step, s.total_steps)) =
      some (1, 3) := by
  refine ⟨?_, by decide, by decide, by decide⟩
  intro tail htail
  have hcons : "Step 2 of 5".data ++ tail =
      'S' :: 't' :: 'e' :: 'p' :: ' ' :: '2' :: ' ' :: 'o' :: 'f' :: ' ' :: '5' :: tail := rfl
  rw [hcons]
  have hs : stepScan ('S' :: 't' :: 'e' :: 'p' :: ' ' :: '2' :: ' ' :: 'o' :: 'f' :: ' ' :: '5' :: tail) =
      some (2, 5) := by
    unfold stepScan
    apply searchWith_cons_some
    simp [stepMatchAt, dropLit, litPref, htail, natOfDigits, isWs, isDigitC,
      List.takeWhile_cons, List.dropWhile_cons]
  simp [parseCore, hs]

/-- Witness for the amended C6 at a concrete trailing text. -/
theorem c6_step_marker_witness :
    (parseCore ("Step 2 of 5".data ++ " done".data)).map
      (fun s => (s.current_step, s.total_steps)) = some (2, 5) :=
  c6_step_marker_amended.1 " done".data (by decide)

/-- Bullet criteria as the spec describes them: the lines of the text
that start with a dash or bullet character, their content after the
bullet trimmed, empty ones discarded, capped at the first five.  Kept
separate from the source-derived `criteriaScan` for comparison. -/
def specBulletCriteria (content : List Char) : List (List Char) :=
  ((content.splitOn '\n').filterMap (fun line =>
    match line with
    | c :: rest =>
      if c = '-' ∨ c = '•' then
        (let s := stripL rest; if s = [] then none else some s)
      else none
    | [] => none)).take 5

def c7CleanText : List Char :=
  "## Inline Gates\n### Quality Gate\n- a\n- b\n- c\n- d\n- e\n- f\n- g\n".data

def c7HyphenText : List Char :=
  "## Inline Gates\n### Quality Gate\nwell-known\n- a\n- b\n- c\n- d\n- e\n- f\n- g\n".data

/-- Counterexample to claim C7 as stated: in a gate-bearing response
containing the word "well-known", the interior hyphen is captured by the
source's pattern, so `gate_criteria` starts with "known" and drops the
fifth bullet line — it does not equal the trimmed bullet-style lines
capped at five. -/
theorem c7_gate_criteria_counterexample :
    (parseCore c7HyphenText).map ChainState.gate_criteria =
      some ["known".data, "a".data, "b".data, "c".data, "d".data] ∧
    specBulletCriteria c7HyphenText =
      ["a".data, "b".data, "c".data, "d".data, "e".data] ∧
    (["known".data, "a".data, "b".data, "c".data, "d".data] : List (List Char)) ≠
      ["a".data, "b".data, "c".data, "d".data, "e".data] := by
  decide

/-- Claim C7 amended: `gate_criteria` is built from the dash/bullet
captures of the whole text (a dash need not start a line), capped at the
first five raw captures and then stripped with blank captures discarded;
consequently every parsed state carries at most five criteria, and a
clean bullet list of seven items yields exactly five. -/
theorem c7_gate_criteria_amended :
    (∀ (content : List Char) (st : ChainState),
      parseCore content = some st → st.gate_criteria.length ≤ 5) ∧
    (parseCore c7CleanText).map (fun s => s.gate_criteria.length) = some 5 := by
  refine ⟨?_, by decide⟩
  intro content st h
  simp only [parseCore] at h
  split at h
  · rw [Option.some.injEq] at h
    rw [← h]
    exact criteriaScan_length_le content
  · exact Option.noConfusion h

def c7WitnessState : ChainState :=
  { chain_id := [], current_step := 0, total_steps := 0,
    pending_gate := some "Quality Gate".data,
    gate_criteria := ["a".data, "b".data, "c".data, "d".data, "e".data],
    last_prompt_id := [] }

/-- Witness for the amended C7 at the clean seven-bullet text. -/
theorem c7_gate_criteria_witness : c7WitnessState.gate_criteria.length ≤ 5 :=
  c7_gate_criteria_amended.1 c7CleanText c7WitnessState (by decide)

/-- Claim C8: `load` returns `none` when the record is missing, when the
file is unreadable (the `IOError` case) and when its content fails JSON
decoding — corruption is indistinguishable from absence, and the
function is total, so no error reaches the caller. -/
theorem c8_load_error_absorption (fs : List Char → Option (Option (List Char)))
    (dec : List Char → Option ChainState) (sid : List Char)
    (h : fs sid = none ∨ fs sid = some none ∨
      ∃ raw, fs sid = some (some raw) ∧ dec raw = none) :
    load_session_state fs dec sid = none := by
  unfold load_session_state
  rcases h with h | h | ⟨raw, hr, hd⟩
  · rw [h]
  · rw [h]
  · rw [hr]
    exact hd

/-- Witness for C8 on a present but undecodable record. -/
theorem c8_load_error_absorption_witness :
    load_session_state (fun _ => some (some "not valid json".data)) (fun _ => none)
      "s1".data = none :=
  c8_load_error_absorption (fun _ => some (some "not valid json".data)) (fun _ => none)
    "s1".data (Or.inr (Or.inr ⟨"not valid json".data, rfl, rfl⟩))

def c9Fs : List Char → Option (List Char) := fun q =>
  if q = sessionPath "s".data then some "OLDSTATE".data else none

/-- Counterexample to claim C9: `save` opens the record for writing
(truncating it) and then writes; after the truncate but before the write
the record holds the empty string, which is neither the old nor the new
content — a concurrently running `load` observes a partially written
record — and the operation sequence contains no rename at all. -/
theorem c9_save_atomicity_counterexample :
    runOps c9Fs ((saveOps "s".data "NEWSTATE".data).take 1) (sessionPath "s".data) =
      some [] ∧
    some ([] : List Char) ≠ some "OLDSTATE".data ∧
    some ([] : List Char) ≠ some "NEWSTATE".data ∧
    (saveOps "s".data "NEWSTATE".data).all (fun op => !(isRenameOp op)) = true := by
  decide

/-- Claim C9 amended: `save` overwrites the record in place by a truncate
followed by a write, with no rename step; the full sequence leaves
exactly the encoded state in the record, but after the truncate alone the
record is empty, so a load interleaved between the two operations
observes a partially written (empty, hence corrupt-looking) record. -/
theorem c9_save_in_place_amended (fs : List Char → Option (List Char))
    (sid enc : List Char) :
    runOps fs (saveOps sid enc) (sessionPath sid) = some enc ∧
    runOps fs ((saveOps sid enc).take 1) (sessionPath sid) = some [] ∧
    (saveOps sid enc).all (fun op => !(isRenameOp op)) = true := by
  refine ⟨?_, ?_, ?_⟩
  · simp [runOps, saveOps, applyOp]
  · simp [runOps, saveOps, applyOp]
  · simp [saveOps, isRenameOp]

/-- Claim C10: for any non-empty token drawn from the chain-id character
class, a response whose chain marker is `chain-<token>` or
`chain_<token>` is parsed with `chain_id` equal to the bare token: the
`chain-`/`chain_` prefix is stripped and never stored. -/
theorem c10_chain_token_stripped (tok : List Char) (h1 : tok ≠ [])
    (h2 : tok.all isChainClass = true) :
    (parseCore ("Step 1 of 2 chain-".data ++ tok)).map ChainState.chain_id = some tok ∧
    (parseCore ("Step 1 of 2 chain_".data ++ tok)).map ChainState.chain_id = some tok := by
  have ht : tok.takeWhile isChainClass = tok := takeWhile_of_all _ _ h2
  constructor
  · have hcons : "Step 1 of 2 chain-".data ++ tok =
        'S' :: 't' :: 'e' :: 'p' :: ' ' :: '1' :: ' ' :: 'o' :: 'f' :: ' ' :: '2' :: ' ' :: 'c' :: 'h' :: 'a' :: 'i' :: 'n' :: '-' :: tok := rfl
    rw [hcons]
    have hc : chainScan
        ('S' :: 't' :: 'e' :: 'p' :: ' ' :: '1' :: ' ' :: 'o' :: 'f' :: ' ' :: '2' :: ' ' :: 'c' :: 'h' :: 'a' :: 'i' :: 'n' :: '-' :: tok) =
        some tok := by
      unfold chainScan
      iterate 12 rw [searchWith_cons_none _ _ _ rfl]
      apply searchWith_cons_some
      simp [chainMatchAt, dropLit, litPref, ht, h1]
    have hs : stepScan
        ('S' :: 't' :: 'e' :: 'p' :: ' ' :: '1' :: ' ' :: 'o' :: 'f' :: ' ' :: '2' :: ' ' :: 'c' :: 'h' :: 'a' :: 'i' :: 'n' :: '-' :: tok) =
        some (1, 2) := by
      unfold stepScan
      exact searchWith_cons_some _ _ _ _ rfl
    simp [parseCore, hs, hc]
  · have hcons : "Step 1 of 2 chain_".data ++ tok =
        'S' :: 't' :: 'e' :: 'p' :: ' ' :: '1' :: ' ' :: 'o' :: 'f' :: ' ' :: '2' :: ' ' :: 'c' :: 'h' :: 'a' :: 'i' :: 'n' :: '_' :: tok := rfl
    rw [hcons]
    have hc : chainScan
        ('S' :: 't' :: 'e' :: 'p' :: ' ' :: '1' :: ' ' :: 'o' :: 'f' :: ' ' :: '2' :: ' ' :: 'c' :: 'h' :: 'a' :: 'i' :: 'n' :: '_' :: tok) =
        some tok := by
      unfold chainScan
      iterate 12 rw [searchWith_cons_none _ _ _ rfl]
      apply searchWith_cons_some
      simp [chainMatchAt, dropLit, litPref, ht, h1]
    have hs : stepScan
        ('S' :: 't' :: 'e' :: 'p' :: ' ' :: '1' :: ' ' :: 'o' :: 'f' :: ' ' :: '2' :: ' ' :: 'c' :: 'h' :: 'a' :: 'i' :: 'n' :: '_' :: tok) =
        some (1, 2) := by
      unfold stepScan
      exact searchWith_cons_some _ _ _ _ rfl
    simp [parseCore, hs, hc]

/-- Witness for C10 at the token "abc123". -/
theorem c10_chain_token_stripped_witness :
    (parseCore ("Step 1 of 2 chain-".data ++ "abc123".data)).map ChainState.chain_id =
      some "abc123".data ∧
    (parseCore ("Step 1 of 2 chain_".data ++ "abc123".data)).map ChainState.chain_id =
      some "abc123".data :=
  c10_chain_token_stripped "abc123".data (by decide) (by decide)
